import Mathlib

/-!
Verification of the multi-bank consent orchestration and read-through
synchronization engine of the VTB_API_HACK repository.

The Python services (`app/services/universal_bank_service.py`,
`app/services/data_aggregation_service.py`, `app/config.py`,
`app/bank_api_router.py`) are shallowly embedded here:

* the relational store is a record of lists of rows (`AggState`);
* SQLAlchemy `scalar_one_or_none` is `scalarOneOrNone` (errors on more than
  one matching row, which the Python code turns into a caught exception);
* Python string truthiness (`None` and `""` are falsy) is modelled on
  `Option String` by `strTruthy` / `pyOr`, mirroring `a or b` chains;
* wall-clock datetimes are naive-UTC tick counts (`Nat`);
* `Decimal` amounts are exact integers in minor units (`Int`); the string
  parse `Decimal(str(s))` is abstracted away: payloads carry the parsed
  value, with `none` standing for a missing or empty (falsy) amount field;
* every provider HTTP interaction is a parameter (an "oracle" value that
  stands for the provider's answer), so that theorems quantify over all
  provider behaviours;
* free-text / counterparty columns (remittance information, creditor and
  debtor fields) and account metadata columns (type, currency, IBAN, BIC,
  balances) are not referenced by any verified property and are omitted
  from the row models.
-/

namespace VTBBank

/-- Python truthiness of an optional string: `None` and `""` are falsy. -/
def strTruthy : Option String → Option String
  | some s => if s = "" then none else some s
  | none => none

/-- Python `a or b` on optional strings, normalised so that the result is
`none` exactly when the Python value is falsy. -/
def pyOr (a b : Option String) : Option String :=
  match strTruthy a with
  | some s => some s
  | none => strTruthy b

/-- Python `str.lower()`, character by character (the statuses and
identifiers it is applied to are ASCII).  Defined over the character list so
that proofs can evaluate it. -/
def pyLower (s : String) : String :=
  ⟨s.data.map Char.toLower⟩

/-- Python `str.startswith(pre)`, defined over the character lists so that
proofs can evaluate it. -/
def pyStartsWith (s pre : String) : Bool :=
  s.data.take pre.data.length == pre.data

/-- SQLAlchemy `scalar_one_or_none`: `none` for an empty result, the row for a
singleton, and an error (`MultipleResultsFound`) for anything larger. -/
def scalarOneOrNone {α : Type} : List α → Except Unit (Option α)
  | [] => .ok none
  | [x] => .ok (some x)
  | _ => .error ()

/-! ## Data model (app/models.py) -/

/-- A `bank_consents` row (model `BankConsent`). -/
structure ConsentRow where
  rowId : Nat
  user_id : Nat
  bank_code : String
  consent_id : String
  status : String
  auto_approved : Bool
  expires_at : Option Nat
  created_at : Nat
  deriving Repr, DecidableEq

/-- A `bank_accounts` row (model `BankAccount`), restricted to the columns the
verified properties read or write. -/
structure AccountRow where
  rowId : Nat
  user_id : Nat
  bank_code : String
  account_id : String
  consent_id : Option String
  last_synced_at : Option Nat
  is_active : Bool
  deriving Repr, DecidableEq

/-- A `bank_transactions` row (model `BankTransaction`), restricted to the
columns the verified properties read or write. -/
structure TxRow where
  user_id : Nat
  account_id : Nat
  bank_code : String
  transaction_id : Option String
  amount : Int
  currency : String
  transaction_type : String
  category : String
  booking_date : Nat
  value_date : Option Nat
  deriving Repr, DecidableEq

/-- The relational store, as seen by the aggregation core. -/
structure AggState where
  consents : List ConsentRow
  accounts : List AccountRow
  transactions : List TxRow
  deriving Repr, DecidableEq

/-! ## Provider registry (app/config.py) -/

/-- A resolved bank connection profile (`BankConfig` in `app/config.py`). -/
structure BankConfig where
  api_url : String
  client_id : String
  client_secret : String
  requesting_bank : String
  requesting_bank_name : String
  redirecting_url : String
  deriving Repr, DecidableEq

/-- The built-in vbank profile (`Settings.VBANK_*` defaults). -/
def vbankDefaultConfig : BankConfig :=
  { api_url := "https://vbank.open.bankingapi.ru"
    client_id := "team261-3"
    client_secret := "24ADfpV1IyoAAP7d"
    requesting_bank := "team261"
    requesting_bank_name := "Team 261 Virtual Bank App"
    redirecting_url := "https://vbank.open.bankingapi.ru/client/" }

/-! ## Token acquirer (`UniversalBankAPIService.get_bank_access_token`) -/

/-- The single POST issued by `get_bank_access_token`, as (url, query params),
after the configuration guards at lines 125-135; `none` models an early
`return None`.  The query parameters are written exactly as the source builds
them at lines 139-142. -/
def tokenRequest (bank : BankConfig) : Option (String × List (String × String)) :=
  if bank.client_id = "" then none
  else if bank.client_secret = "" ∨
          bank.client_secret = "your_vbank_client_secret_here" ∨
          pyStartsWith bank.client_secret "your_" then none
  else if bank.api_url = "" then none
  else some (bank.api_url ++ "/auth/bank-token",
             [("client_id", "team261"), ("client_secret", "24ADfpV1IyoAAP7d")])

/-- Response handling of `get_bank_access_token` (lines 145-164): on HTTP 200
the `access_token` field is returned when truthy, otherwise `None`. -/
def tokenResponse (status : Nat) (access_token : Option String) : Option String :=
  if status = 200 then strTruthy access_token else none

/-- `OAuth2BankService.get_bank_access_token` request parameters
(`app/services/bank_oauth_service.py` lines 66-70): `client_id` is the
profile's `requesting_bank`, `client_secret` the profile's secret. -/
def oauthTokenRequest (bank : BankConfig) : String × List (String × String) :=
  (bank.api_url ++ "/auth/bank-token",
   [("client_id", bank.requesting_bank), ("client_secret", bank.client_secret)])

/-! ## Consent status polling (`check_and_poll_consent_approval`) -/

/-- The status-bearing part of a `GET /account-consents/{id}` reply, after the
`data`-nesting unwrap at lines 252-261 of `universal_bank_service.py`. -/
structure ConsentDetails where
  status : Option String
  consentId : Option String
  consent_id : Option String
  deriving Repr, DecidableEq

/-- What one polling attempt does with an observed status. -/
inductive PollStep where
  /-- line 264: `status.lower() in ["authorized", "authorised"]` (truthy). -/
  | authorisedStep
  /-- line 302: `status == "approved"`. -/
  | approvedStep
  /-- line 309: rejected/revoked family, returned lowercased. -/
  | terminalStep (st : String)
  /-- line 316: `status in ["pending", "AwaitingAuthorisation"]` — sleep, retry. -/
  | waitPending
  /-- line 319: unknown status (or a missing one) — sleep, retry. -/
  | waitUnknown
  deriving Repr, DecidableEq

/-- The status dispatch of one iteration of the polling loop
(`check_and_poll_consent_approval`, lines 262-321). -/
def classifyConsentStatus (status : Option String) : PollStep :=
  match status with
  | some st =>
    if st ≠ "" ∧ (pyLower st = "authorized" ∨ pyLower st = "authorised") then .authorisedStep
    else if st = "approved" then .approvedStep
    else if st = "rejected" ∨ st = "Rejected" ∨ st = "revoked" ∨ st = "Revoked" then
      .terminalStep (pyLower st)
    else if st = "pending" ∨ st = "AwaitingAuthorisation" then .waitPending
    else .waitUnknown
  | none => .waitUnknown

/-- The dictionary `check_and_poll_consent_approval` returns (its `None`
outcome — a raised and caught exception — is the `Option` wrapper below). -/
structure PollResult where
  status : String
  consent_id : String
  timeout : Bool
  deriving Repr, DecidableEq

/-- The polling loop of `check_and_poll_consent_approval` (lines 242-329).
Each list element is one attempt's provider reply (`none` = the details fetch
failed, which the code also retries); the list length is the attempt budget
`max_attempts`.  On an authorised status carrying a fresh `consentId`, the
stored consent row is repointed (lines 271-293). -/
def pollLoop (u : Nat) (b : String) :
    List (Option ConsentDetails) → String → AggState → AggState × Option PollResult
  | [], cid, s => (s, some ⟨"pending", cid, true⟩)
  | r :: rest, cid, s =>
    match r with
    | none => pollLoop u b rest cid s
    | some d =>
      match classifyConsentStatus d.status with
      | .authorisedStep =>
        match pyOr d.consentId d.consent_id with
        | some n =>
          if n = cid then (s, some ⟨"approved", cid, false⟩)
          else
            match scalarOneOrNone (s.consents.filter fun c =>
                c.user_id == u && c.bank_code == b && c.consent_id == cid) with
            | .error _ => (s, none)
            | .ok none => (s, some ⟨"approved", cid, false⟩)
            | .ok (some _c0) =>
              ({ s with consents := s.consents.map fun c =>
                   if c.user_id == u && c.bank_code == b && c.consent_id == cid then
                     { c with consent_id := n, status := "approved" } else c },
               some ⟨"approved", n, false⟩)
        | none => (s, some ⟨"approved", cid, false⟩)
      | .approvedStep => (s, some ⟨"approved", cid, false⟩)
      | .terminalStep st => (s, some ⟨st, cid, false⟩)
      | .waitPending => pollLoop u b rest cid s
      | .waitUnknown => pollLoop u b rest cid s

/-! ## Consent lookups and validation -/

/-- `UniversalBankAPIService.get_active_consent_from_db` (lines 174-216).  The
query's `order_by(created_at.desc())` cannot influence the outcome of
`scalar_one_or_none` (it errors whenever more than one row matches) and is
therefore not modelled.  An approved consent whose `expires_at` is in the past
is mutated to `"revoked"` and committed, and `None` is returned. -/
def get_active_consent_from_db (now : Nat) (u : Nat) (b : String) (s : AggState) :
    AggState × Option ConsentRow :=
  match scalarOneOrNone (s.consents.filter fun c =>
      c.user_id == u && c.bank_code == b && c.status == "approved") with
  | .error _ => (s, none)
  | .ok none => (s, none)
  | .ok (some c) =>
    match c.expires_at with
    | some e =>
      if e < now then
        ({ s with consents := s.consents.map fun c2 =>
             if c2.user_id == u && c2.bank_code == b && c2.status == "approved" then
               { c2 with status := "revoked" } else c2 }, none)
      else (s, some c)
    | none => (s, some c)

/-- Outcome of `validate_consent_for_use`. -/
inductive ValidationResult where
  | valid (c : ConsentRow)
  | invalid (c : Option ConsentRow) (error : String)
  deriving Repr, DecidableEq

/-- `UniversalBankAPIService.validate_consent_for_use` (lines 569-656): looks
up the consent (by id when given, else the pair's sole row), rejects revoked /
unapproved / expired ones, and — like the active-consent lookup — rewrites an
expired approved consent's status to `"revoked"` in place. -/
def validate_consent_for_use (now : Nat) (u : Nat) (b : String)
    (cid : Option String) (s : AggState) : AggState × ValidationResult :=
  let rowPred : ConsentRow → Bool := match cid with
    | some cidv => fun c => c.consent_id == cidv && c.user_id == u && c.bank_code == b
    | none => fun c => c.user_id == u && c.bank_code == b
  match scalarOneOrNone (s.consents.filter rowPred) with
  | .error _ => (s, .invalid none "Error validating consent")
  | .ok none => (s, .invalid none "Consent not found. Please create a consent first.")
  | .ok (some c) =>
    if c.status = "revoked" then
      (s, .invalid (some c) "Consent was deleted/revoked. Please create a new consent.")
    else if c.status ≠ "approved" then
      (s, .invalid (some c) ("Consent is not approved. Current status: " ++ c.status))
    else
      match c.expires_at with
      | some e =>
        if e < now then
          ({ s with consents := s.consents.map fun c2 =>
               if rowPred c2 then { c2 with status := "revoked" } else c2 },
           .invalid (some c) "Consent has expired. Please create a new consent.")
        else (s, .valid c)
      | none => (s, .valid c)

/-- The stored-status update of `GET /consents/{consent_id}`
(`app/bank_api_router.py` lines 1066-1080): whatever truthy status the
provider reports is lowercased and written to the row when it differs. -/
def consentDetailsStatusUpdate (dbStatus : String) (bankStatus : Option String) : String :=
  match strTruthy bankStatus with
  | some bs => if pyLower bs ≠ dbStatus then pyLower bs else dbStatus
  | none => dbStatus

/-! ## Consent request (`UniversalBankAPIService.request_account_consent`) -/

/-- The provider's reply to `POST /account-consents/request`, after the
flat/nested extraction at lines 444-457 (`auto_approved` carries its
`.get(..., True)` default). -/
structure ConsentReqPayload where
  status : Option String
  consent_id : Option String
  request_id : Option String
  auto_approved : Bool
  deriving Repr, DecidableEq

/-- A consent-request HTTP exchange: a non-2xx reply or a parsed body. -/
inductive ConsentReqResponse where
  | httpFail (statusCode : Nat)
  | ok (payload : ConsentReqPayload)
  deriving Repr, DecidableEq

/-- What `request_account_consent` hands back to its caller. -/
inductive ConsentRequestResult where
  /-- step 1 (line 377): an existing live consent is reused, no network call. -/
  | fromDb (status : String) (consent_id : String) (auto : Bool)
  /-- lines 554-559: the provider refused the request. -/
  | httpError (statusCode : Nat)
  /-- lines 461-466: neither `consent_id` nor `request_id` in the reply. -/
  | noIdError
  /-- line 560-567: an unexpected exception, surfaced as an error dict. -/
  | exceptionError
  /-- lines 544-549: the consent (or interim request) that was persisted. -/
  | created (status : String) (consent_id : String) (auto : Bool) (is_request : Bool)
  deriving Repr, DecidableEq

/-- `UniversalBankAPIService.request_account_consent` (lines 334-567) with
`db` and `internal_user_id` supplied (the persisted path).  `resp` is the
provider's reply to the consent request and `details` the reply to the
follow-up `GET /account-consents/{request_id}` (used only for interim
`req-` identifiers); `newRowId` is the primary key the insert receives. -/
def request_account_consent (now : Nat) (u : Nat) (b : String)
    (resp : ConsentReqResponse) (details : Option ConsentDetails)
    (newRowId : Nat) (s : AggState) : AggState × ConsentRequestResult :=
  match get_active_consent_from_db now u b s with
  | (s1, some existing) =>
    (s1, .fromDb "approved" existing.consent_id existing.auto_approved)
  | (s1, none) =>
    let s2 : AggState :=
      { s1 with
        accounts := s1.accounts.map fun a =>
          if a.user_id == u && a.bank_code == b then { a with consent_id := none } else a
        consents := s1.consents.filter fun c => !(c.user_id == u && c.bank_code == b) }
    match resp with
    | .httpFail st => (s2, .httpError st)
    | .ok payload =>
      let consent_status := payload.status.getD "approved"
      match pyOr payload.consent_id payload.request_id with
      | none => (s2, .noIdError)
      | some cid =>
        let is_request := pyStartsWith cid "req-"
        let newRow : ConsentRow :=
          { rowId := newRowId, user_id := u, bank_code := b, consent_id := cid
            status := consent_status, auto_approved := payload.auto_approved
            expires_at := some (now + 365 * 86400), created_at := now }
        let s3 := { s2 with consents := s2.consents ++ [newRow] }
        if is_request then
          match details with
          | none => (s3, .created consent_status cid payload.auto_approved is_request)
          | some d =>
            let final_status := d.status.getD consent_status
            match pyOr d.consentId d.consent_id with
            | some f =>
              if f = cid then
                (s3, .created final_status cid payload.auto_approved is_request)
              else
                match scalarOneOrNone (s3.consents.filter fun c =>
                    c.user_id == u && c.bank_code == b && c.consent_id == cid) with
                | .error _ => (s3, .exceptionError)
                | .ok none =>
                  (s3, .created consent_status cid payload.auto_approved is_request)
                | .ok (some _c0) =>
                  ({ s3 with consents := s3.consents.map fun c =>
                       if c.user_id == u && c.bank_code == b && c.consent_id == cid then
                         { c with consent_id := f, status := final_status } else c },
                   .created final_status f payload.auto_approved is_request)
            | none =>
              (s3, .created final_status cid payload.auto_approved is_request)
        else (s3, .created consent_status cid payload.auto_approved is_request)

/-! ## Transaction persistence (`DataAggregationService._save_transaction`) -/

/-- The `amount` field of a raw transaction payload: either the nested object
`{"amount": ..., "currency": ...}` or a bare scalar.  A payload without an
`amount` key (`.get("amount", {})` yields `{}`) is `obj none none`; a missing
or empty (falsy) amount string is `none`, a parsed `Decimal` is the integer it
denotes (in minor units). -/
inductive AmountField where
  | obj (amount : Option Int) (currency : Option String)
  | scalar (amount : Option Int)
  deriving Repr, DecidableEq

/-- A raw transaction payload, restricted to the keys `_save_transaction`
reads for the columns kept in `TxRow`.  Timestamps carry the value
`datetime.fromisoformat` would produce, already normalised to naive UTC
(lines 727-754); `none` stands for an absent or unparseable field. -/
structure TxPayload where
  transactionId : Option String
  transaction_id : Option String
  idField : Option String
  amount : AmountField
  currency : Option String
  creditDebitIndicator : Option String
  credit_debit_indicator : Option String
  transaction_type : Option String
  bookingDateTime : Option Nat
  valueDateTime : Option Nat
  deriving Repr, DecidableEq

/-- The transaction-id extraction chain (lines 668-672):
`transactionId or transaction_id or id`. -/
def extract_tx_id (p : TxPayload) : Option String :=
  pyOr (pyOr p.transactionId p.transaction_id) p.idField

/-- The amount extraction of lines 689-699 (nested object or bare scalar);
`none` is the falsy case that drops the record. -/
def extract_amount (p : TxPayload) : Option Int :=
  match p.amount with
  | .obj a _ => a
  | .scalar a => a

/-- The currency carried inside a nested amount object (line 693). -/
def extract_amount_currency (p : TxPayload) : Option String :=
  match p.amount with
  | .obj _ c => c
  | .scalar _ => none

/-- The credit/debit indicator chain (lines 705-709). -/
def extract_indicator (p : TxPayload) : Option String :=
  pyOr (pyOr p.creditDebitIndicator p.credit_debit_indicator) p.transaction_type

/-- The insert branch of `_save_transaction` (lines 689-803): drop the record
when the amount is falsy, else derive type, category and absolute amount and
append the new row. -/
def insert_transaction (now : Nat) (u : Nat) (accId : Nat) (b : String)
    (p : TxPayload) (tx_id : Option String) (txs : List TxRow) :
    List TxRow × Option TxRow :=
  match extract_amount p with
  | none => (txs, none)
  | some amount =>
    let currency := (pyOr (extract_amount_currency p) p.currency).getD "RUB"
    let tx_type :=
      match extract_indicator p with
      | some t => t
      | none => if 0 ≤ amount then "credit" else "debit"
    let category := if pyLower tx_type = "debit" then "expense" else "income"
    let row : TxRow :=
      { user_id := u, account_id := accId, bank_code := b, transaction_id := tx_id
        amount := |amount|, currency := currency
        transaction_type := pyLower tx_type, category := category
        booking_date := p.bookingDateTime.getD now
        value_date := p.valueDateTime }
    (txs ++ [row], some row)

/-- `DataAggregationService._save_transaction` (lines 640-803).  A payload
whose extracted id matches an existing (user, account, transaction id) row is
returned as-is without touching the store; `MultipleResultsFound` on that
lookup is the `.error` case (the caller's `except` turns it into a failed
sync). -/
def save_transaction (now : Nat) (u : Nat) (accId : Nat) (b : String)
    (p : TxPayload) (txs : List TxRow) : Except Unit (List TxRow × Option TxRow) :=
  match extract_tx_id p with
  | none => .ok (insert_transaction now u accId b p none txs)
  | some t =>
    match scalarOneOrNone (txs.filter fun r =>
        r.user_id == u && r.transaction_id == some t && r.account_id == accId) with
    | .error _ => .error ()
    | .ok (some r) => .ok (txs, some r)
    | .ok none => .ok (insert_transaction now u accId b p (some t) txs)

/-! ## Account list normalisation (`UniversalBankAPIService.get_accounts`) -/

/-- One raw account entry's identifier-bearing fields: the extraction at
lines 816-822 looks at `account_id`, `id`, `accountId`, and — when the nested
`account` value is a dict — its `identification` and `account_id` keys. -/
structure RawAccount where
  account_id : Option String
  idField : Option String
  accountId : Option String
  accountIdentification : Option String
  accountNestedId : Option String
  deriving Repr, DecidableEq

/-- The `account_id` extraction chain of `get_accounts` (lines 816-822). -/
def extract_account_id (acc : RawAccount) : Option String :=
  pyOr (pyOr (pyOr (pyOr acc.account_id acc.idField) acc.accountId)
    acc.accountIdentification) acc.accountNestedId

/-- The cleaning loop of `get_accounts` (lines 807-850): entries without a
usable identifier are skipped; the rest are kept, tagged with the resolved
identifier the code guarantees under the `account_id` key (the recursive
null-key stripping concerns fields outside this model). -/
def get_accounts_clean : List RawAccount → List (String × RawAccount)
  | [] => []
  | acc :: rest =>
    match extract_account_id acc with
    | none => get_accounts_clean rest
    | some aid => (aid, acc) :: get_accounts_clean rest

/-! ## Sync and read-through cache (`DataAggregationService`) -/

/-- `DataAggregationService._get_active_consent` (lines 805-821): unlike the
universal service's lookup it neither checks `expires_at` nor catches the
`MultipleResultsFound` error (which therefore propagates to the caller). -/
def get_active_consent (u : Nat) (b : String) (s : AggState) :
    Except Unit (Option ConsentRow) :=
  scalarOneOrNone (s.consents.filter fun c =>
    c.user_id == u && c.bank_code == b && c.status == "approved")

/-- `DataAggregationService._save_consent` (lines 534-568): upsert by
(user, bank, consent id), always forcing status `"approved"`. -/
def save_consent (now : Nat) (u : Nat) (b : String) (cid : String)
    (auto : Bool) (newRowId : Nat) (s : AggState) : Except Unit AggState :=
  match scalarOneOrNone (s.consents.filter fun c =>
      c.user_id == u && c.bank_code == b && c.consent_id == cid) with
  | .error _ => .error ()
  | .ok (some _c0) =>
    .ok { s with consents := s.consents.map fun c =>
            if c.user_id == u && c.bank_code == b && c.consent_id == cid then
              { c with status := "approved", auto_approved := auto } else c }
  | .ok none =>
    .ok { s with consents := s.consents ++
            [{ rowId := newRowId, user_id := u, bank_code := b, consent_id := cid
               status := "approved", auto_approved := auto
               expires_at := none, created_at := now }] }

/-- One sync attempt's provider behaviour: the bank-token reply and the
transaction-fetch reply (`none` = the call failed / the reply was falsy). -/
structure ProviderOracle where
  token : Option String
  fetchTransactions : Option (List TxPayload)
  deriving Repr

/-- How many provider HTTP calls an operation performed. -/
structure CallCounts where
  tokenCalls : Nat
  txFetchCalls : Nat
  deriving Repr, DecidableEq

def addCounts (a b : CallCounts) : CallCounts :=
  ⟨a.tokenCalls + b.tokenCalls, a.txFetchCalls + b.txFetchCalls⟩

/-- Outcome of `sync_account_transactions`. -/
inductive SyncResult where
  | failure (msg : String)
  | success (transactions_synced : Nat)
  deriving Repr, DecidableEq

/-- The per-payload save loop of `sync_account_transactions` (lines 246-254).
Each `_save_transaction` commits on its own, so rows saved before an
exception stay persisted; the `Bool` is whether the loop finished. -/
def saveAllTransactions (now : Nat) (u : Nat) (accId : Nat) (b : String) :
    List TxRow → List TxPayload → List TxRow × Bool
  | txs, [] => (txs, true)
  | txs, p :: rest =>
    match save_transaction now u accId b p txs with
    | .error _ => (txs, false)
    | .ok (txs', _) => saveAllTransactions now u accId b txs' rest

/-- `DataAggregationService.sync_account_transactions` (lines 184-270):
resolve the local account by primary key, acquire a token, fetch the trailing
window of transactions, save each, then advance `last_synced_at`.  The
`days_back` window only parametrises the provider call and lives inside the
oracle. -/
def sync_account_transactions (now : Nat) (u : Nat) (accId : Nat) (b : String)
    (_consent_id : String) (o : ProviderOracle) (s : AggState) :
    AggState × SyncResult × CallCounts :=
  match s.accounts.find? (fun a => a.rowId == accId) with
  | none => (s, .failure "Account not found", ⟨0, 0⟩)
  | some _account =>
    match o.token with
    | none => (s, .failure "Failed to get bank token", ⟨1, 0⟩)
    | some _tok =>
      match o.fetchTransactions with
      | none => (s, .failure "Failed to fetch transactions", ⟨1, 1⟩)
      | some txps =>
        match saveAllTransactions now u accId b s.transactions txps with
        | (txs', false) =>
          ({ s with transactions := txs' }, .failure "Error syncing transactions", ⟨1, 1⟩)
        | (txs', true) =>
          ({ s with
               transactions := txs'
               accounts := s.accounts.map fun a =>
                 if a.rowId == accId then { a with last_synced_at := some now } else a },
           .success txps.length, ⟨1, 1⟩)

/-- What `get_transactions_read_through` returns. -/
inductive ReadOutcome where
  | failure (msg : String)
  | page (transactions : List TxRow) (total_count : Nat) (pageN : Nat) (limitN : Nat)
  deriving Repr, DecidableEq

/-- Insertion into a list kept in descending `booking_date` order. -/
def insertByBookingDesc (t : TxRow) : List TxRow → List TxRow
  | [] => [t]
  | h :: r =>
    if h.booking_date ≤ t.booking_date then t :: h :: r
    else h :: insertByBookingDesc t r

/-- `ORDER BY booking_date DESC` of the serving query. -/
def sortByBookingDesc : List TxRow → List TxRow
  | [] => []
  | h :: r => insertByBookingDesc h (sortByBookingDesc r)

/-- Step 4 of `get_transactions_read_through` (lines 448-511): filter the
stored rows by user, account and optional date range, count the filtered set,
order by booking date descending, and paginate. -/
def serve_transactions (u : Nat) (accRowId : Nat) (fromDate toDate : Option Nat)
    (pageN limit : Nat) (txs : List TxRow) : ReadOutcome :=
  let filtered := txs.filter fun t =>
    t.user_id == u && t.account_id == accRowId &&
    (match fromDate with | some f => decide (f ≤ t.booking_date) | none => true) &&
    (match toDate with | some d => decide (t.booking_date ≤ d) | none => true)
  let total := filtered.length
  let sorted := sortByBookingDesc filtered
  .page ((sorted.drop ((pageN - 1) * limit)).take limit) total pageN limit

/-- `DataAggregationService.get_transactions_read_through` (lines 328-518).
`recover` stands for the account-recovery path of lines 360-412 (token,
consent lookup, `get_account_details`, `_save_account`), which no verified
property exercises; it reports the state it leaves, the account it found,
and the provider calls it spent. -/
def get_transactions_read_through (now : Nat) (u : Nat) (account_id : String)
    (b : String) (fromDate toDate : Option Nat) (pageN limit ttl : Nat)
    (o : ProviderOracle)
    (recover : AggState → AggState × Option AccountRow × CallCounts)
    (s : AggState) : AggState × ReadOutcome × CallCounts :=
  match scalarOneOrNone (s.accounts.filter fun a =>
      a.user_id == u && a.account_id == account_id && a.bank_code == b) with
  | .error _ => (s, .failure "MultipleResultsFound", ⟨0, 0⟩)
  | .ok acctOpt =>
    let (s0, accountOpt, c0) :=
      match acctOpt with
      | some a => (s, some a, (⟨0, 0⟩ : CallCounts))
      | none => recover s
    match accountOpt with
    | none => (s0, .failure "Account could not be saved/retrieved", c0)
    | some account =>
      let is_stale :=
        match account.last_synced_at with
        | some t => decide ((ttl : Int) ≤ (now : Int) - (t : Int))
        | none => true
      if is_stale then
        match get_active_consent u b s0 with
        | .error _ => (s0, .failure "MultipleResultsFound", c0)
        | .ok none =>
          (s0, serve_transactions u account.rowId fromDate toDate pageN limit s0.transactions, c0)
        | .ok (some consent) =>
          let (s1, _syncRes, c1) :=
            sync_account_transactions now u account.rowId b consent.consent_id o s0
          (s1, serve_transactions u account.rowId fromDate toDate pageN limit s1.transactions,
           addCounts c0 c1)
      else
        (s0, serve_transactions u account.rowId fromDate toDate pageN limit s0.transactions, c0)

/-! ## Theorems for the specification claims -/

/-- Helper: filtering with a predicate after keeping its complement yields
nothing. -/
theorem filter_not_filter {α : Type} (p : α → Bool) (l : List α) :
    (l.filter fun x => !(p x)).filter p = [] := by
  induction l with
  | nil => rfl
  | cons x rest ih =>
    by_cases hx : p x = true
    · simp [List.filter_cons, hx, ih]
    · simp only [Bool.not_eq_true] at hx
      simp [List.filter_cons, hx, ih]

/-- Helper: a map that does not change a predicate's value commutes with the
filter on that predicate. -/
theorem filter_map_of_preserve {α : Type} (g : α → α) (p : α → Bool)
    (hp : ∀ x, p (g x) = p x) (l : List α) :
    (l.map g).filter p = (l.filter p).map g := by
  induction l with
  | nil => rfl
  | cons x rest ih =>
    by_cases hx : p x = true
    · simp [List.filter_cons, hp, hx, ih]
    · simp only [Bool.not_eq_true] at hx
      simp [List.filter_cons, hp, hx, ih]

/-- Helper: a conditional rewrite whose condition only fires on rows the
predicate selects — and which itself does not change the predicate's value —
is invisible to the filter on the predicate's complement. -/
theorem filter_not_map_cond {α : Type} (p q : α → Bool) (f : α → α)
    (h1 : ∀ x, p (f x) = p x) (h2 : ∀ x, q x = true → p x = true) (l : List α) :
    ((l.map fun x => if q x then f x else x).filter fun x => !(p x)) =
      l.filter fun x => !(p x) := by
  induction l with
  | nil => rfl
  | cons x rest ih =>
    by_cases hqx : q x = true
    · have hpx := h2 x hqx
      simp [List.filter_cons, hqx, h1, hpx, ih]
    · simp only [Bool.not_eq_true] at hqx
      simp [List.filter_cons, hqx, ih]

/-- Helper: the active-consent lookup never touches the account or
transaction tables. -/
theorem get_active_consent_from_db_other_tables (now u : Nat) (b : String) (s : AggState) :
    (get_active_consent_from_db now u b s).1.accounts = s.accounts ∧
    (get_active_consent_from_db now u b s).1.transactions = s.transactions := by
  unfold get_active_consent_from_db
  split
  · exact ⟨rfl, rfl⟩
  · exact ⟨rfl, rfl⟩
  · split
    · split
      · exact ⟨rfl, rfl⟩
      · exact ⟨rfl, rfl⟩
    · exact ⟨rfl, rfl⟩

/-- Helper: the active-consent lookup leaves the consent rows outside the
(user, bank) pair untouched, and in general only rewrites a row's status. -/
theorem get_active_consent_from_db_consents (now u : Nat) (b : String) (s : AggState) :
    ((get_active_consent_from_db now u b s).1.consents.filter fun c =>
        !(c.user_id == u && c.bank_code == b)) =
      (s.consents.filter fun c => !(c.user_id == u && c.bank_code == b)) ∧
    (∀ c ∈ s.consents, ∃ c1 ∈ (get_active_consent_from_db now u b s).1.consents,
        c1.consent_id = c.consent_id ∧ c1.user_id = c.user_id ∧ c1.bank_code = c.bank_code) := by
  have hid : ∀ t : AggState, t.consents = s.consents →
      ((t.consents.filter fun c => !(c.user_id == u && c.bank_code == b)) =
        (s.consents.filter fun c => !(c.user_id == u && c.bank_code == b)) ∧
      (∀ c ∈ s.consents, ∃ c1 ∈ t.consents,
        c1.consent_id = c.consent_id ∧ c1.user_id = c.user_id ∧ c1.bank_code = c.bank_code)) := by
    intro t ht
    rw [ht]
    exact ⟨rfl, fun c hc => ⟨c, hc, rfl, rfl, rfl⟩⟩
  unfold get_active_consent_from_db
  split
  · exact hid _ rfl
  · exact hid _ rfl
  · split
    · split
      · -- the revocation branch: a map that only rewrites `status`
        constructor
        · refine filter_not_map_cond (fun c => c.user_id == u && c.bank_code == b)
            (fun c => c.user_id == u && c.bank_code == b && c.status == "approved")
            (fun c => { c with status := "revoked" }) (fun c => rfl) ?_ s.consents
          intro c hc
          simp only [Bool.and_eq_true] at hc
          simp [hc.1.1, hc.1.2]
        · intro c hc
          refine ⟨(fun c2 => if c2.user_id == u && c2.bank_code == b && c2.status == "approved"
              then { c2 with status := "revoked" } else c2) c, List.mem_map_of_mem _ hc, ?_⟩
          by_cases hc2 : (c.user_id == u && c.bank_code == b && c.status == "approved") = true <;>
            simp [hc2]
      · exact hid _ rfl
    · exact hid _ rfl

/-- Helper: the serving step always succeeds with a page of results. -/
theorem serve_transactions_is_page (u accRowId : Nat) (fromD toD : Option Nat)
    (pageN limit : Nat) (txs : List TxRow) :
    ∃ (l : List TxRow) (n : Nat),
      serve_transactions u accRowId fromD toD pageN limit txs = .page l n pageN limit :=
  ⟨_, _, rfl⟩

/-- Helper: a singleton result of `scalar_one_or_none` pins the row list. -/
theorem scalarOneOrNone_ok_some {α : Type} {l : List α} {x : α}
    (h : scalarOneOrNone l = .ok (some x)) : l = [x] := by
  match l with
  | [] => simp [scalarOneOrNone] at h
  | [a] =>
    simp only [scalarOneOrNone, Except.ok.injEq, Option.some.injEq] at h
    rw [h]
  | a :: b :: rest => simp [scalarOneOrNone] at h

/-- Helper: when the payload carries a usable amount, the insert branch
appends exactly one row whose key columns are the supplied ones. -/
theorem insert_transaction_appends (now u accId : Nat) (b : String) (p : TxPayload)
    (tid : Option String) (txs : List TxRow) (a : Int)
    (ha : extract_amount p = some a) :
    ∃ row : TxRow, insert_transaction now u accId b p tid txs = (txs ++ [row], some row) ∧
      row.user_id = u ∧ row.account_id = accId ∧ row.transaction_id = tid := by
  unfold insert_transaction
  rw [ha]
  exact ⟨_, rfl, rfl, rfl, rfl⟩

/-- C5: token acquisition issues a single POST to `{base}/auth/bank-token`
and returns the `access_token` on success, but the `client_id` and
`client_secret` query parameters are hardcoded literals, not the resolved
profile's credentials: for the default vbank profile (whose `client_id` is
`"team261-3"`) the request carries `client_id=team261`, contradicting the
function's own docstring, its configuration guards and its log line. -/
theorem bank_token_request_hardcoded_credentials :
    tokenRequest vbankDefaultConfig =
      some ("https://vbank.open.bankingapi.ru/auth/bank-token",
            [("client_id", "team261"), ("client_secret", "24ADfpV1IyoAAP7d")]) ∧
    vbankDefaultConfig.client_id = "team261-3" ∧
    vbankDefaultConfig.client_id ≠ "team261" ∧
    tokenResponse 200 (some "tok-1") = some "tok-1" := by
  refine ⟨by decide, rfl, by decide, rfl⟩

/-- C4 counterexample: the provider status `"given"` is not mapped to
approved — one polling iteration classifies it as an unknown status and
retries, and a full 30-attempt poll observing only `"given"` ends in the
still-pending timeout outcome. -/
theorem consent_status_given_not_approved :
    classifyConsentStatus (some "given") = PollStep.waitUnknown ∧
    PollStep.waitUnknown ≠ PollStep.authorisedStep ∧
    PollStep.waitUnknown ≠ PollStep.approvedStep ∧
    (pollLoop 1 "vbank" (List.replicate 30 (some ⟨some "given", none, none⟩))
        "cons-1" ⟨[], [], []⟩).2 = some ⟨"pending", "cons-1", true⟩ := by
  refine ⟨rfl, by decide, by decide, by decide⟩

/-- C4 (amended): polling normalizes `"Authorised"` (case-insensitively) and
the exact `"approved"` to approved, `"Rejected"`/`"Revoked"` to their
lowercased canonical states, while `"given"`, `"valid"`, `"active"` and every
other unrecognized status are treated as still-pending retries — no status
outside the authorised/approved family ever classifies as approved. -/
theorem consent_status_normalization :
    classifyConsentStatus (some "Authorised") = PollStep.authorisedStep ∧
    classifyConsentStatus (some "approved") = PollStep.approvedStep ∧
    classifyConsentStatus (some "Rejected") = PollStep.terminalStep "rejected" ∧
    classifyConsentStatus (some "Revoked") = PollStep.terminalStep "revoked" ∧
    classifyConsentStatus (some "given") = PollStep.waitUnknown ∧
    classifyConsentStatus (some "valid") = PollStep.waitUnknown ∧
    classifyConsentStatus (some "active") = PollStep.waitUnknown ∧
    ∀ st : String, pyLower st ≠ "authorized" → pyLower st ≠ "authorised" →
      st ≠ "approved" →
      classifyConsentStatus (some st) ≠ PollStep.authorisedStep ∧
      classifyConsentStatus (some st) ≠ PollStep.approvedStep := by
  refine ⟨by decide, by decide, by decide, by decide, by decide, by decide, by decide, ?_⟩
  intro st h1 h2 h3
  have hcond : ¬(st ≠ "" ∧ (pyLower st = "authorized" ∨ pyLower st = "authorised")) := by
    rintro ⟨-, h | h⟩
    · exact h1 h
    · exact h2 h
  simp only [classifyConsentStatus]
  rw [if_neg hcond, if_neg h3]
  constructor <;>
    · split
      · simp
      · split <;> simp

/-- C4 witness: the amended theorem applied at the concrete unrecognized
status `"given"`. -/
theorem consent_status_normalization_witness :
    classifyConsentStatus (some "given") ≠ PollStep.authorisedStep ∧
    classifyConsentStatus (some "given") ≠ PollStep.approvedStep :=
  consent_status_normalization.2.2.2.2.2.2.2 "given" (by decide) (by decide) (by decide)

/-- C10: a transaction row added by `_save_transaction` stores the absolute
value of the provider-reported amount (hence is never negative), carries the
direction in `transaction_type` — the lowercased explicit indicator when one
is present, else the sign of the original amount — and derives the category
as expense for debit and income otherwise. -/
theorem stored_transaction_abs_amount :
    ∀ (now u accId : Nat) (b : String) (p : TxPayload) (txs : List TxRow) (row : TxRow),
    save_transaction now u accId b p txs = .ok (txs ++ [row], some row) →
    ∃ a : Int, extract_amount p = some a ∧
      row.amount = |a| ∧ 0 ≤ row.amount ∧
      row.transaction_type =
        pyLower (match extract_indicator p with
         | some t => t
         | none => if 0 ≤ a then "credit" else "debit") ∧
      row.category = (if row.transaction_type = "debit" then "expense" else "income") := by
  intro now u accId b p txs row h
  have hins : ∀ tid, insert_transaction now u accId b p tid txs = (txs ++ [row], some row) →
      ∃ a : Int, extract_amount p = some a ∧
        row.amount = |a| ∧ 0 ≤ row.amount ∧
        row.transaction_type =
          pyLower (match extract_indicator p with
           | some t => t
           | none => if 0 ≤ a then "credit" else "debit") ∧
        row.category = (if row.transaction_type = "debit" then "expense" else "income") := by
    intro tid hi
    unfold insert_transaction at hi
    split at hi
    · simp at hi
    · rename_i a ha
      simp only [Prod.mk.injEq, Option.some.injEq] at hi
      obtain ⟨-, hrow⟩ := hi
      subst hrow
      exact ⟨a, ha, rfl, abs_nonneg a, rfl, rfl⟩
  unfold save_transaction at h
  split at h
  · simp only [Except.ok.injEq] at h
    exact hins none h
  · rename_i t hid
    split at h
    · simp at h
    · simp only [Except.ok.injEq, Prod.mk.injEq] at h
      have := congrArg List.length h.1
      simp at this
    · simp only [Except.ok.injEq] at h
      exact hins (some t) h

/-- C10 witness: the theorem applied to a concrete payload whose provider
amount is -500 with no direction indicator: the stored row keeps 500 with
type debit and category expense. -/
theorem stored_transaction_abs_amount_witness :
    ∃ a : Int,
      extract_amount ⟨some "tx-1", none, none, .obj (some (-500)) (some "RUB"),
        none, none, none, none, some 100, none⟩ = some a ∧
      (⟨1, 2, "vbank", some "tx-1", 500, "RUB", "debit", "expense", 100, none⟩ : TxRow).amount = |a| ∧
      0 ≤ (⟨1, 2, "vbank", some "tx-1", 500, "RUB", "debit", "expense", 100, none⟩ : TxRow).amount ∧
      (⟨1, 2, "vbank", some "tx-1", 500, "RUB", "debit", "expense", 100, none⟩ : TxRow).transaction_type =
        pyLower (match extract_indicator ⟨some "tx-1", none, none, .obj (some (-500)) (some "RUB"),
            none, none, none, none, some 100, none⟩ with
         | some t => t
         | none => if 0 ≤ a then "credit" else "debit") ∧
      (⟨1, 2, "vbank", some "tx-1", 500, "RUB", "debit", "expense", 100, none⟩ : TxRow).category =
        (if (⟨1, 2, "vbank", some "tx-1", 500, "RUB", "debit", "expense", 100, none⟩ : TxRow).transaction_type = "debit"
         then "expense" else "income") :=
  stored_transaction_abs_amount 50 1 2 "vbank"
    ⟨some "tx-1", none, none, .obj (some (-500)) (some "RUB"),
      none, none, none, none, some 100, none⟩ []
    ⟨1, 2, "vbank", some "tx-1", 500, "RUB", "debit", "expense", 100, none⟩ rfl

/-- C3 counterexample: a payload that carries a provider transaction id
(`"tx-1"`) but no amount is dropped on every save, so saving it twice leaves
zero rows for its key, not exactly one. -/
theorem save_id_without_amount_never_stored :
    save_transaction 50 1 2 "vbank"
        ⟨some "tx-1", none, none, .obj none none, none, none, none, none, none, none⟩ [] =
      .ok ([], none) ∧
    save_transaction 60 1 2 "vbank"
        ⟨some "tx-1", none, none, .obj none none, none, none, none, none, none, none⟩ [] =
      .ok ([], none) ∧
    (([] : List TxRow).filter fun r =>
        r.user_id == 1 && r.transaction_id == some "tx-1" && r.account_id == 2).length ≠ 1 := by
  refine ⟨rfl, rfl, by decide⟩

/-- C3 (amended): for a payload carrying both a provider transaction id and a
usable amount, saving into a store with no row for the key
(user, account, provider transaction id) appends exactly one row for that
key, and saving the same payload again — at any later time, as overlapping
sync windows do — returns that stored row and leaves the store unchanged. -/
theorem save_transaction_idempotent :
    ∀ (now now2 u accId : Nat) (b : String) (p : TxPayload) (txs : List TxRow)
      (t : String) (a : Int),
    extract_tx_id p = some t →
    extract_amount p = some a →
    (txs.filter fun r =>
        r.user_id == u && r.transaction_id == some t && r.account_id == accId) = [] →
    ∃ row : TxRow,
      save_transaction now u accId b p txs = .ok (txs ++ [row], some row) ∧
      ((txs ++ [row]).filter fun r =>
          r.user_id == u && r.transaction_id == some t && r.account_id == accId) = [row] ∧
      save_transaction now2 u accId b p (txs ++ [row]) = .ok (txs ++ [row], some row) := by
  intro now now2 u accId b p txs t a ht ha hfil
  obtain ⟨row, hrow, hu, hacc, htid⟩ :=
    insert_transaction_appends now u accId b p (some t) txs a ha
  have hfil2 : ((txs ++ [row]).filter fun r =>
      r.user_id == u && r.transaction_id == some t && r.account_id == accId) = [row] := by
    simp [List.filter_append, hfil, List.filter, hu, hacc, htid]
  refine ⟨row, ?_, hfil2, ?_⟩
  · simp [save_transaction, ht, hfil, scalarOneOrNone, hrow]
  · simp [save_transaction, ht, hfil2, scalarOneOrNone]

/-- C3 witness: the amended theorem applied to a concrete payload saved twice
into an empty store. -/
theorem save_transaction_idempotent_witness :
    ∃ row : TxRow,
      save_transaction 50 1 2 "vbank"
          ⟨some "tx-1", none, none, .obj (some 300) (some "RUB"),
            none, some "Credit", none, none, some 100, none⟩ [] =
        .ok ([] ++ [row], some row) ∧
      (([] ++ [row]).filter fun r =>
          r.user_id == 1 && r.transaction_id == some "tx-1" && r.account_id == 2) = [row] ∧
      save_transaction 60 1 2 "vbank"
          ⟨some "tx-1", none, none, .obj (some 300) (some "RUB"),
            none, some "Credit", none, none, some 100, none⟩ ([] ++ [row]) =
        .ok ([] ++ [row], some row) :=
  save_transaction_idempotent 50 60 1 2 "vbank"
    ⟨some "tx-1", none, none, .obj (some 300) (some "RUB"),
      none, some "Credit", none, none, some 100, none⟩ [] "tx-1" 300 rfl rfl rfl

/-- C8 counterexample: a transaction payload lacking any provider transaction
id but carrying an amount is not dropped — it is stored as a row whose
`transaction_id` is NULL. -/
theorem transaction_without_id_stored_with_null_id :
    save_transaction 50 1 2 "vbank"
        ⟨none, none, none, .obj (some 700) (some "RUB"),
          none, some "Credit", none, none, some 100, none⟩ [] =
      .ok ([⟨1, 2, "vbank", none, 700, "RUB", "credit", "income", 100, none⟩],
           some ⟨1, 2, "vbank", none, 700, "RUB", "credit", "income", 100, none⟩) ∧
    ([⟨1, 2, "vbank", none, 700, "RUB", "credit", "income", 100, none⟩] : List TxRow).length ≠ 0 := by
  refine ⟨rfl, by decide⟩

/-- C8 (amended): the identifier requirement holds for accounts — the
normaliser keeps exactly the raw entries whose identifier extraction
succeeds, dropping the rest — while for transactions the gating field is the
amount: an amount-less payload leaves the store unchanged (dropped, or an
already-stored row re-served), and a payload with an amount but no provider
transaction id is stored with a NULL id rather than dropped. -/
theorem normalizer_identifier_requirement :
    (∀ accs : List RawAccount,
        get_accounts_clean accs =
          accs.filterMap fun acc => (extract_account_id acc).map fun aid => (aid, acc)) ∧
    (∀ (now u accId : Nat) (b : String) (p : TxPayload) (txs txs' : List TxRow)
       (r : Option TxRow),
        extract_amount p = none →
        save_transaction now u accId b p txs = .ok (txs', r) →
        txs' = txs) ∧
    (∀ (now u accId : Nat) (b : String) (p : TxPayload) (txs : List TxRow) (a : Int),
        extract_tx_id p = none →
        extract_amount p = some a →
        ∃ row : TxRow, save_transaction now u accId b p txs = .ok (txs ++ [row], some row) ∧
          row.transaction_id = none) := by
  refine ⟨?_, ?_, ?_⟩
  · intro accs
    induction accs with
    | nil => rfl
    | cons acc rest ih =>
      cases hid : extract_account_id acc with
      | none => simp [get_accounts_clean, hid, ih]
      | some aid => simp [get_accounts_clean, hid, ih]
  · intro now u accId b p txs txs' r ha h
    have hins : insert_transaction now u accId b p (extract_tx_id p) txs = (txs, none) := by
      unfold insert_transaction
      rw [ha]
    unfold save_transaction at h
    split at h
    · rename_i hid
      unfold insert_transaction at h
      rw [ha] at h
      simp only [Except.ok.injEq, Prod.mk.injEq] at h
      exact h.1.symm
    · rename_i t hid
      split at h
      · simp at h
      · simp only [Except.ok.injEq, Prod.mk.injEq] at h
        exact h.1.symm
      · unfold insert_transaction at h
        rw [ha] at h
        simp only [Except.ok.injEq, Prod.mk.injEq] at h
        exact h.1.symm
  · intro now u accId b p txs a hid ha
    obtain ⟨row, hrow, -, -, htid⟩ :=
      insert_transaction_appends now u accId b p none txs a ha
    refine ⟨row, ?_, htid⟩
    simp [save_transaction, hid, hrow]

/-- C8 witness: the amended theorem's parts applied at concrete inputs — a
raw account list with one identifier-less and one identified entry, an
amount-less transaction payload, and an id-less transaction payload. -/
theorem normalizer_identifier_requirement_witness :
    get_accounts_clean
        [⟨none, none, none, none, none⟩, ⟨some "acc-1", none, none, none, none⟩] =
      [("acc-1", ⟨some "acc-1", none, none, none, none⟩)] ∧
    ([] : List TxRow) = [] ∧
    ∃ row : TxRow,
      save_transaction 50 1 2 "vbank"
          ⟨none, none, none, .obj (some 700) (some "RUB"),
            none, some "Credit", none, none, some 100, none⟩ [] =
        .ok ([] ++ [row], some row) ∧
      row.transaction_id = none := by
  refine ⟨?_, ?_, ?_⟩
  · rw [normalizer_identifier_requirement.1]
    rfl
  · exact normalizer_identifier_requirement.2.1 50 1 2 "vbank"
      ⟨some "t", none, none, .obj none none, none, none, none, none, none, none⟩ [] [] none
      rfl rfl
  · exact normalizer_identifier_requirement.2.2 50 1 2 "vbank"
      ⟨none, none, none, .obj (some 700) (some "RUB"),
        none, some "Credit", none, none, some 100, none⟩ [] 700 rfl rfl

/-- C6 counterexample: with one prior (pending) consent row stored for
(user 1, vbank), a provider reply carrying neither `consent_id` nor
`request_id` does return a structured error and persists no new row — but the
stored consent state is NOT the same as before the operation: the retire step
has already deleted the prior row before the provider call. -/
theorem consent_request_no_id_deletes_prior :
    request_account_consent 1000 1 "vbank" (.ok ⟨some "pending", none, none, true⟩) none 7
        ⟨[⟨1, 1, "vbank", "req-old", "pending", true, some 999999, 10⟩], [], []⟩ =
      (⟨[], [], []⟩, .noIdError) ∧
    ([⟨1, 1, "vbank", "req-old", "pending", true, some 999999, 10⟩] : List ConsentRow) ≠ [] := by
  refine ⟨rfl, by decide⟩

/-- C6 (amended): when no live approved consent exists and the provider's
reply carries neither a `consent_id` nor a `request_id`, the consent request
returns the structured no-identifier error and persists no new consent row —
but it does not leave the stored state untouched: the stored consent state
for the (user, bank) pair afterwards is the retired state (every consent row
of the pair deleted and its accounts detached), which equals the pre-call
state only when the pair had no rows to begin with. -/
theorem consent_request_no_id_hard_failure :
    ∀ (now u : Nat) (b : String) (payload : ConsentReqPayload)
      (details : Option ConsentDetails) (newRowId : Nat) (s : AggState),
    (get_active_consent_from_db now u b s).2 = none →
    pyOr payload.consent_id payload.request_id = none →
    request_account_consent now u b (.ok payload) details newRowId s =
      (⟨s.consents.filter fun c => !(c.user_id == u && c.bank_code == b),
        s.accounts.map fun a =>
          if a.user_id == u && a.bank_code == b then { a with consent_id := none } else a,
        s.transactions⟩, .noIdError) := by
  intro now u b payload details newRowId s h2 hcid
  rcases hG : get_active_consent_from_db now u b s with ⟨s1, r⟩
  have hr : r = none := by rw [hG] at h2; exact h2
  subst hr
  have hother := get_active_consent_from_db_other_tables now u b s
  have hcons := get_active_consent_from_db_consents now u b s
  rw [hG] at hother hcons
  have hacc : s1.accounts = s.accounts := hother.1
  have htx : s1.transactions = s.transactions := hother.2
  have hconsf : (s1.consents.filter fun c => !(c.user_id == u && c.bank_code == b)) =
      s.consents.filter fun c => !(c.user_id == u && c.bank_code == b) := hcons.1
  simp only [request_account_consent, hG, hcid]
  rw [hconsf, hacc, htx]

/-- C6 witness: the amended theorem applied at a concrete state holding one
pending consent row, with an identifier-less provider reply. -/
theorem consent_request_no_id_hard_failure_witness :
    request_account_consent 1000 2 "abank" (.ok ⟨some "pending", none, none, true⟩) none 7
        ⟨[⟨1, 2, "abank", "req-w", "pending", true, some 999999, 10⟩], [], []⟩ =
      (⟨([⟨1, 2, "abank", "req-w", "pending", true, some 999999, 10⟩] : List ConsentRow).filter
          (fun c => !(c.user_id == 2 && c.bank_code == "abank")),
        ([] : List AccountRow).map (fun a =>
          if a.user_id == 2 && a.bank_code == "abank" then { a with consent_id := none } else a),
        ([] : List TxRow)⟩, .noIdError) :=
  consent_request_no_id_hard_failure 1000 2 "abank" ⟨some "pending", none, none, true⟩ none 7
    ⟨[⟨1, 2, "abank", "req-w", "pending", true, some 999999, 10⟩], [], []⟩ (by decide) rfl

/-- C9 counterexample: the stored-status update of the consent-details
endpoint copies a provider-reported `"Expired"` status lowercased into the
stored consent, so the value `"expired"` can be written to storage. -/
theorem consent_details_endpoint_writes_expired :
    consentDetailsStatusUpdate "approved" (some "Expired") = "expired" ∧
    ("expired" : String) ≠ "revoked" := by
  refine ⟨rfl, by decide⟩

/-- C9 (amended): the expiry checks themselves never write `"expired"`: when
the pair's single approved consent has a past `expires_at`, both the
active-consent lookup and consent validation rewrite that row's status to
`"revoked"`, commit, and report no usable consent — reading consent state is
not side-effect free.  (The consent-details endpoint, by contrast, copies the
provider's reported status verbatim lowercased, so `"expired"` can still
reach storage through it.) -/
theorem expired_consent_marked_revoked :
    ∀ (now u : Nat) (b : String) (s : AggState) (c : ConsentRow) (e : Nat),
    (s.consents.filter fun c2 =>
        c2.user_id == u && c2.bank_code == b && c2.status == "approved") = [c] →
    c.expires_at = some e → e < now →
    (get_active_consent_from_db now u b s =
      ({ s with consents := s.consents.map fun c2 =>
           if c2.user_id == u && c2.bank_code == b && c2.status == "approved" then
             { c2 with status := "revoked" } else c2 }, none)) ∧
    ((s.consents.filter fun c2 =>
        c2.consent_id == c.consent_id && c2.user_id == u && c2.bank_code == b) = [c] →
      validate_consent_for_use now u b (some c.consent_id) s =
        ({ s with consents := s.consents.map fun c2 =>
             if c2.consent_id == c.consent_id && c2.user_id == u && c2.bank_code == b then
               { c2 with status := "revoked" } else c2 },
         .invalid (some c) "Consent has expired. Please create a new consent.")) := by
  intro now u b s c e hfil hexp hlt
  have hcmem : c ∈ s.consents.filter fun c2 =>
      c2.user_id == u && c2.bank_code == b && c2.status == "approved" := by
    rw [hfil]; exact List.mem_singleton_self c
  have hpred := (List.mem_filter.mp hcmem).2
  simp only [Bool.and_eq_true, beq_iff_eq] at hpred
  have hstatus : c.status = "approved" := hpred.2
  constructor
  · simp only [get_active_consent_from_db, hfil, scalarOneOrNone, hexp]
    rw [if_pos hlt]
  · intro hfil2
    simp only [validate_consent_for_use, hfil2, scalarOneOrNone, hexp, hstatus]
    rw [if_neg (by decide : ¬("approved" : String) = "revoked"),
      if_neg (by simp : ¬("approved" : String) ≠ "approved"), if_pos hlt]

/-- C9 witness: the amended theorem applied at a concrete store holding one
approved consent whose expiry (5) lies before the current time (1000). -/
theorem expired_consent_marked_revoked_witness :
    get_active_consent_from_db 1000 1 "vbank"
        ⟨[⟨1, 1, "vbank", "cons-9", "approved", true, some 5, 1⟩], [], []⟩ =
      (⟨[⟨1, 1, "vbank", "cons-9", "revoked", true, some 5, 1⟩], [], []⟩, none) ∧
    validate_consent_for_use 1000 1 "vbank" (some "cons-9")
        ⟨[⟨1, 1, "vbank", "cons-9", "approved", true, some 5, 1⟩], [], []⟩ =
      (⟨[⟨1, 1, "vbank", "cons-9", "revoked", true, some 5, 1⟩], [], []⟩,
       .invalid (some ⟨1, 1, "vbank", "cons-9", "approved", true, some 5, 1⟩)
         "Consent has expired. Please create a new consent.") := by
  have h := expired_consent_marked_revoked 1000 1 "vbank"
    ⟨[⟨1, 1, "vbank", "cons-9", "approved", true, some 5, 1⟩], [], []⟩
    ⟨1, 1, "vbank", "cons-9", "approved", true, some 5, 1⟩ 5 (by decide) rfl (by decide)
  exact ⟨h.1.trans (by decide), (h.2 (by decide)).trans (by decide)⟩

/-- C1: when no live approved consent exists for (user, bank) and the
provider's reply carries an identifier, `request_account_consent` retires the
pair — clearing the consent reference of every Account row of the pair and
deleting every Consent row of the pair — before inserting the new consent, so
afterwards exactly one consent row exists for the pair and (in a state whose
account references resolve within their own pair) no Account row references a
deleted consent. -/
theorem request_consent_at_most_one_live :
    ∀ (now u : Nat) (b : String) (payload : ConsentReqPayload)
      (details : Option ConsentDetails) (newRowId : Nat) (s s' : AggState)
      (res : ConsentRequestResult),
    (∀ a ∈ s.accounts, ∀ cidr : String, a.consent_id = some cidr →
       ∃ c ∈ s.consents, c.consent_id = cidr ∧ c.user_id = a.user_id ∧ c.bank_code = a.bank_code) →
    (get_active_consent_from_db now u b s).2 = none →
    pyOr payload.consent_id payload.request_id ≠ none →
    request_account_consent now u b (.ok payload) details newRowId s = (s', res) →
    ((s'.consents.filter fun c => c.user_id == u && c.bank_code == b).length = 1) ∧
    (∀ a ∈ s'.accounts, a.user_id = u → a.bank_code = b → a.consent_id = none) ∧
    (∀ a ∈ s'.accounts, ∀ cidr : String, a.consent_id = some cidr →
       ∃ c ∈ s'.consents, c.consent_id = cidr) := by
  intro now u b payload details newRowId s s' res hwf h2 h3 hreq
  rcases hcid : pyOr payload.consent_id payload.request_id with _ | cid
  · exact absurd hcid h3
  rcases hG : get_active_consent_from_db now u b s with ⟨s1, r⟩
  have hr : r = none := by rw [hG] at h2; exact h2
  subst hr
  have hother := get_active_consent_from_db_other_tables now u b s
  have hcons := get_active_consent_from_db_consents now u b s
  rw [hG] at hother hcons
  have hacc : s1.accounts = s.accounts := hother.1
  have hmem1 : ∀ c ∈ s.consents, ∃ c1 ∈ s1.consents,
      c1.consent_id = c.consent_id ∧ c1.user_id = c.user_id ∧ c1.bank_code = c.bank_code :=
    hcons.2
  -- facts about the retired accounts table
  have hAccDetach : ∀ a ∈ (s1.accounts.map fun a =>
        if a.user_id == u && a.bank_code == b then { a with consent_id := none } else a),
      a.user_id = u → a.bank_code = b → a.consent_id = none := by
    rw [hacc]
    intro a ha hu hb
    obtain ⟨a0, ha0, rfl⟩ := List.mem_map.mp ha
    by_cases hp : (a0.user_id == u && a0.bank_code == b) = true
    · simp [hp]
    · rw [if_neg (by simp [hp])] at hu hb ⊢
      exact absurd (by simp [hu, hb]) hp
  -- the dangling-reference transfer: an account that still references a
  -- consent after detachment references a surviving (non-pair) row
  have hDangling : ∀ a ∈ (s1.accounts.map fun a =>
        if a.user_id == u && a.bank_code == b then { a with consent_id := none } else a),
      ∀ cidr : String, a.consent_id = some cidr →
      ∃ c1 ∈ (s1.consents.filter fun c => !(c.user_id == u && c.bank_code == b)),
        c1.consent_id = cidr ∧ (c1.user_id == u && c1.bank_code == b) = false := by
    rw [hacc]
    intro a ha cidr hcidr
    obtain ⟨a0, ha0, rfl⟩ := List.mem_map.mp ha
    by_cases hp : (a0.user_id == u && a0.bank_code == b) = true
    · rw [if_pos hp] at hcidr
      exact absurd hcidr (by simp)
    · rw [if_neg (by simp [hp])] at hcidr
      obtain ⟨c, hc, hcideq, hcu, hcb⟩ := hwf a0 ha0 cidr hcidr
      obtain ⟨c1, hc1, e1, e2, e3⟩ := hmem1 c hc
      have hc1pair : (c1.user_id == u && c1.bank_code == b) = false := by
        rw [e2, e3, hcu, hcb]
        exact Bool.not_eq_true _ ▸ hp
      refine ⟨c1, List.mem_filter.mpr ⟨hc1, by rw [hc1pair]; rfl⟩, e1.trans hcideq, hc1pair⟩
  -- the three conclusions hold for the state right after the insert …
  have conc3 : ∀ t : AggState,
      t.consents = (s1.consents.filter fun c => !(c.user_id == u && c.bank_code == b)) ++
        [⟨newRowId, u, b, cid, payload.status.getD "approved", payload.auto_approved,
          some (now + 365 * 86400), now⟩] →
      t.accounts = (s1.accounts.map fun a =>
        if a.user_id == u && a.bank_code == b then { a with consent_id := none } else a) →
      ((t.consents.filter fun c => c.user_id == u && c.bank_code == b).length = 1) ∧
      (∀ a ∈ t.accounts, a.user_id = u → a.bank_code = b → a.consent_id = none) ∧
      (∀ a ∈ t.accounts, ∀ cidr : String, a.consent_id = some cidr →
        ∃ c ∈ t.consents, c.consent_id = cidr) := by
    intro t htc hta
    refine ⟨?_, ?_, ?_⟩
    · rw [htc, List.filter_append, filter_not_filter]
      simp
    · rw [hta]; exact hAccDetach
    · rw [htc, hta]
      intro a ha cidr hcidr
      obtain ⟨c1, hc1, e1, -⟩ := hDangling a ha cidr hcidr
      exact ⟨c1, List.mem_append_left _ hc1, e1⟩
  -- … and for the state after the interim-id replacement
  have conc4 : ∀ (fId fSt : String) (t : AggState),
      t.consents = (((s1.consents.filter fun c => !(c.user_id == u && c.bank_code == b)) ++
        [(⟨newRowId, u, b, cid, payload.status.getD "approved", payload.auto_approved,
          some (now + 365 * 86400), now⟩ : ConsentRow)]).map fun (c : ConsentRow) =>
          if c.user_id == u && c.bank_code == b && c.consent_id == cid then
            { c with consent_id := fId, status := fSt } else c) →
      t.accounts = (s1.accounts.map fun a =>
        if a.user_id == u && a.bank_code == b then { a with consent_id := none } else a) →
      ((t.consents.filter fun c => c.user_id == u && c.bank_code == b).length = 1) ∧
      (∀ a ∈ t.accounts, a.user_id = u → a.bank_code = b → a.consent_id = none) ∧
      (∀ a ∈ t.accounts, ∀ cidr : String, a.consent_id = some cidr →
        ∃ c ∈ t.consents, c.consent_id = cidr) := by
    intro fId fSt t htc hta
    refine ⟨?_, ?_, ?_⟩
    · rw [htc]
      rw [filter_map_of_preserve
          (fun (c : ConsentRow) =>
            if c.user_id == u && c.bank_code == b && c.consent_id == cid then
              { c with consent_id := fId, status := fSt } else c)
          (fun (c : ConsentRow) => c.user_id == u && c.bank_code == b)
          (fun c => by
            by_cases hcnd : (c.user_id == u && c.bank_code == b && c.consent_id == cid) = true <;>
              simp [hcnd])]
      rw [List.length_map, List.filter_append, filter_not_filter]
      simp
    · rw [hta]; exact hAccDetach
    · rw [htc, hta]
      intro a ha cidr hcidr
      obtain ⟨c1, hc1, e1, hc1pair⟩ := hDangling a ha cidr hcidr
      refine ⟨c1, ?_, e1⟩
      have hcond : ((c1.user_id == u && c1.bank_code == b) && c1.consent_id == cid) = false := by
        rw [hc1pair, Bool.false_and]
      have hkeep : (if c1.user_id == u && c1.bank_code == b && c1.consent_id == cid then
          { c1 with consent_id := fId, status := fSt } else c1) = c1 :=
        if_neg (by rw [hcond]; decide)
      exact hkeep ▸ List.mem_map_of_mem _ (List.mem_append_left _ hc1)
  -- reduce the operation at the hypotheses and dispatch every branch
  simp only [request_account_consent, hG, hcid] at hreq
  split at hreq
  · split at hreq
    · injection hreq with hA hB
      subst hA
      exact conc3 _ rfl rfl
    · split at hreq
      · split at hreq
        · injection hreq with hA hB
          subst hA
          exact conc3 _ rfl rfl
        · split at hreq
          · injection hreq with hA hB
            subst hA
            exact conc3 _ rfl rfl
          · injection hreq with hA hB
            subst hA
            exact conc3 _ rfl rfl
          · injection hreq with hA hB
            subst hA
            exact conc4 _ _ _ rfl rfl
      · injection hreq with hA hB
        subst hA
        exact conc3 _ rfl rfl
  · injection hreq with hA hB
    subst hA
    exact conc3 _ rfl rfl

/-- C1 witness: the theorem applied at a concrete store holding one stale
pending consent and one account referencing it; after the operation the pair
has exactly the new approved row and the account is detached. -/
theorem request_consent_at_most_one_live_witness :
    (((⟨[⟨7, 1, "vbank", "cons-new", "approved", true, some (1000 + 365 * 86400), 1000⟩],
        [⟨5, 1, "vbank", "acc-1", none, none, true⟩], []⟩ : AggState).consents.filter
      fun c => c.user_id == 1 && c.bank_code == "vbank").length = 1) ∧
    (∀ a ∈ (⟨[⟨7, 1, "vbank", "cons-new", "approved", true, some (1000 + 365 * 86400), 1000⟩],
        [⟨5, 1, "vbank", "acc-1", none, none, true⟩], []⟩ : AggState).accounts,
      a.user_id = 1 → a.bank_code = "vbank" → a.consent_id = none) ∧
    (∀ a ∈ (⟨[⟨7, 1, "vbank", "cons-new", "approved", true, some (1000 + 365 * 86400), 1000⟩],
        [⟨5, 1, "vbank", "acc-1", none, none, true⟩], []⟩ : AggState).accounts,
      ∀ cidr : String, a.consent_id = some cidr →
      ∃ c ∈ (⟨[⟨7, 1, "vbank", "cons-new", "approved", true, some (1000 + 365 * 86400), 1000⟩],
          [⟨5, 1, "vbank", "acc-1", none, none, true⟩], []⟩ : AggState).consents,
        c.consent_id = cidr) :=
  request_consent_at_most_one_live 1000 1 "vbank"
    ⟨some "approved", some "cons-new", none, true⟩ none 7
    ⟨[⟨3, 1, "vbank", "cons-old", "pending", true, some 999999, 10⟩],
      [⟨5, 1, "vbank", "acc-1", some "cons-old", none, true⟩], []⟩
    ⟨[⟨7, 1, "vbank", "cons-new", "approved", true, some (1000 + 365 * 86400), 1000⟩],
      [⟨5, 1, "vbank", "acc-1", none, none, true⟩], []⟩
    (.created "approved" "cons-new" true false)
    (by
      intro a ha cidr hcidr
      simp only [List.mem_singleton] at ha
      subst ha
      injection hcidr with h
      subst h
      exact ⟨⟨3, 1, "vbank", "cons-old", "pending", true, some 999999, 10⟩,
        List.mem_singleton_self _, rfl, rfl, rfl⟩)
    (by decide) (by decide) (by decide)

/-- C2 counterexample: a read on an existing but never-synced account
(`last_synced_at` unset) with no consent stored performs zero provider calls
— not the exactly-one transaction fetch the claim demands for the stale
side of the boundary. -/
theorem read_through_stale_without_consent_zero_fetches :
    (get_transactions_read_through 1000 1 "acc-1" "vbank" none none 1 50 300
        ⟨some "tok", some []⟩ (fun s => (s, none, ⟨0, 0⟩))
        ⟨[], [⟨3, 1, "vbank", "acc-1", none, none, true⟩], []⟩).2.2 = ⟨0, 0⟩ ∧
    (⟨3, 1, "vbank", "acc-1", none, none, true⟩ : AccountRow).last_synced_at = none ∧
    (⟨0, 0⟩ : CallCounts).txFetchCalls ≠ 1 := by
  refine ⟨rfl, rfl, by decide⟩

/-- C2 (amended): for a read whose local Account row exists, the freshness
boundary holds in this form: when `now - last_synced_at < ttl` the read
performs zero provider calls and serves straight from local storage with the
state untouched; when the age is ≥ ttl (or `last_synced_at` is unset) AND an
approved consent row exists AND token acquisition succeeds, the read performs
exactly one token call and one provider transaction fetch before serving from
local storage, and `last_synced_at` advances to now whenever the fetch
returns data and every fetched record saves cleanly. -/
theorem read_through_cache_freshness :
    ∀ (now u : Nat) (aid b : String) (fromD toD : Option Nat) (pageN limit ttl : Nat)
      (o : ProviderOracle) (rec : AggState → AggState × Option AccountRow × CallCounts)
      (s : AggState) (account : AccountRow),
    scalarOneOrNone (s.accounts.filter fun a =>
        a.user_id == u && a.account_id == aid && a.bank_code == b) = .ok (some account) →
    ((∀ t : Nat, account.last_synced_at = some t → (now : Int) - (t : Int) < (ttl : Int) →
        get_transactions_read_through now u aid b fromD toD pageN limit ttl o rec s =
          (s, serve_transactions u account.rowId fromD toD pageN limit s.transactions,
           ⟨0, 0⟩)) ∧
     (∀ (c : ConsentRow) (tok : String),
        (account.last_synced_at = none ∨
          ∃ t : Nat, account.last_synced_at = some t ∧ (ttl : Int) ≤ (now : Int) - (t : Int)) →
        get_active_consent u b s = .ok (some c) →
        o.token = some tok →
        ∃ s1 : AggState,
          get_transactions_read_through now u aid b fromD toD pageN limit ttl o rec s =
            (s1, serve_transactions u account.rowId fromD toD pageN limit s1.transactions,
             ⟨1, 1⟩) ∧
          (∀ txps : List TxPayload, o.fetchTransactions = some txps →
            (saveAllTransactions now u account.rowId b s.transactions txps).2 = true →
            ∀ a ∈ s1.accounts, a.rowId = account.rowId → a.last_synced_at = some now))) := by
  intro now u aid b fromD toD pageN limit ttl o rec s account hacct
  have haccmem : account ∈ s.accounts := by
    have hl := scalarOneOrNone_ok_some hacct
    have : account ∈ s.accounts.filter fun a =>
        a.user_id == u && a.account_id == aid && a.bank_code == b := by
      rw [hl]; exact List.mem_singleton_self account
    exact (List.mem_filter.mp this).1
  constructor
  · intro t ht hfresh
    have hstale : (decide ((ttl : Int) ≤ (now : Int) - (t : Int))) = false :=
      decide_eq_false (by omega)
    simp only [get_transactions_read_through, hacct, ht, hstale]
    simp
  · intro c tok hstale hcons htok
    have hisstale : (match account.last_synced_at with
        | some t => decide ((ttl : Int) ≤ (now : Int) - (t : Int))
        | none => true) = true := by
      rcases hstale with h | ⟨t, ht, hge⟩
      · rw [h]
      · rw [ht]; exact decide_eq_true hge
    rcases hfind : s.accounts.find? (fun a => a.rowId == account.rowId) with _ | a0
    · exfalso
      have hsome : (s.accounts.find? fun a => a.rowId == account.rowId).isSome :=
        List.find?_isSome.mpr ⟨account, haccmem, by simp⟩
      rw [hfind] at hsome
      simp at hsome
    · cases hfetch : o.fetchTransactions with
      | none =>
        refine ⟨s, ?_, ?_⟩
        · simp only [get_transactions_read_through, hacct, hisstale, hcons,
            sync_account_transactions, hfind, htok, hfetch, addCounts]
          simp
        · intro txps htxps
          simp at htxps
      | some txps0 =>
        rcases hsave : saveAllTransactions now u account.rowId b s.transactions txps0 with
          ⟨txs', ok'⟩
        cases ok' with
        | false =>
          refine ⟨{ s with transactions := txs' }, ?_, ?_⟩
          · simp only [get_transactions_read_through, hacct, hisstale, hcons,
              sync_account_transactions, hfind, htok, hfetch, hsave, addCounts]
            simp
          · intro txps htxps hok
            injection htxps with he
            subst he
            rw [hsave] at hok
            simp at hok
        | true =>
          refine ⟨{ s with
              transactions := txs'
              accounts := s.accounts.map fun a =>
                if a.rowId == account.rowId then { a with last_synced_at := some now }
                else a }, ?_, ?_⟩
          · simp only [get_transactions_read_through, hacct, hisstale, hcons,
              sync_account_transactions, hfind, htok, hfetch, hsave, addCounts]
            simp
          · intro txps htxps hok a ha har
            obtain ⟨a1, ha1, rfl⟩ := List.mem_map.mp ha
            by_cases hr : (a1.rowId == account.rowId) = true
            · simp [hr]
            · rw [if_neg (by simp [hr])] at har ⊢
              exact absurd (by simp [har]) hr

/-- C2 witness: the fresh side of the amended theorem applied at a concrete
account synced 100 ticks ago with a 300-tick TTL — zero provider calls. -/
theorem read_through_cache_freshness_witness :
    get_transactions_read_through 1000 1 "acc-1" "vbank" none none 1 50 300
        ⟨some "tok", some []⟩ (fun s => (s, none, ⟨0, 0⟩))
        ⟨[], [⟨3, 1, "vbank", "acc-1", none, some 900, true⟩], []⟩ =
      (⟨[], [⟨3, 1, "vbank", "acc-1", none, some 900, true⟩], []⟩,
       serve_transactions 1 3 none none 1 50 [], ⟨0, 0⟩) :=
  (read_through_cache_freshness 1000 1 "acc-1" "vbank" none none 1 50 300
      ⟨some "tok", some []⟩ (fun s => (s, none, ⟨0, 0⟩))
      ⟨[], [⟨3, 1, "vbank", "acc-1", none, some 900, true⟩], []⟩
      ⟨3, 1, "vbank", "acc-1", none, some 900, true⟩ rfl).1
    900 rfl (by decide)

/-- C7 counterexample: with the pair's only consent approved but expired
(`expires_at` = 5 < now = 1000) — hence no live approved consent — a stale
read does NOT skip the refresh: the consent lookup of the read-through path
ignores expiry, so a provider token call and transaction fetch are issued. -/
theorem read_through_expired_consent_triggers_fetch :
    (get_transactions_read_through 1000 1 "acc-1" "vbank" none none 1 50 300
        ⟨some "tok", some []⟩ (fun s => (s, none, ⟨0, 0⟩))
        ⟨[⟨2, 1, "vbank", "cons-9", "approved", true, some 5, 1⟩],
          [⟨3, 1, "vbank", "acc-1", none, none, true⟩], []⟩).2.2 = ⟨1, 1⟩ ∧
    (⟨2, 1, "vbank", "cons-9", "approved", true, some 5, 1⟩ : ConsentRow).expires_at =
      some 5 ∧
    (5 : Nat) < 1000 ∧
    (⟨1, 1⟩ : CallCounts).txFetchCalls ≠ 0 := by
  refine ⟨rfl, rfl, by decide, by decide⟩

/-- C7 (amended): for a cache-miss read (stale or never-synced account) whose
local Account row exists, when no approved consent row exists for
(user, bank) — the read-through consent lookup ignores expiry, so the
criterion is the stored status, not liveness — the refresh is skipped (zero
provider calls), the state is untouched, and the read still succeeds, serving
whatever transactions are in local storage. -/
theorem read_through_missing_consent_graceful :
    ∀ (now u : Nat) (aid b : String) (fromD toD : Option Nat) (pageN limit ttl : Nat)
      (o : ProviderOracle) (rec : AggState → AggState × Option AccountRow × CallCounts)
      (s : AggState) (account : AccountRow),
    scalarOneOrNone (s.accounts.filter fun a =>
        a.user_id == u && a.account_id == aid && a.bank_code == b) = .ok (some account) →
    (account.last_synced_at = none ∨
      ∃ t : Nat, account.last_synced_at = some t ∧ (ttl : Int) ≤ (now : Int) - (t : Int)) →
    (s.consents.filter fun c =>
        c.user_id == u && c.bank_code == b && c.status == "approved") = [] →
    get_transactions_read_through now u aid b fromD toD pageN limit ttl o rec s =
      (s, serve_transactions u account.rowId fromD toD pageN limit s.transactions, ⟨0, 0⟩) ∧
    ∃ (txsPage : List TxRow) (total : Nat),
      serve_transactions u account.rowId fromD toD pageN limit s.transactions =
        .page txsPage total pageN limit := by
  intro now u aid b fromD toD pageN limit ttl o rec s account hacct hstale hnocons
  have hisstale : (match account.last_synced_at with
      | some t => decide ((ttl : Int) ≤ (now : Int) - (t : Int))
      | none => true) = true := by
    rcases hstale with h | ⟨t, ht, hge⟩
    · rw [h]
    · rw [ht]; exact decide_eq_true hge
  constructor
  · have hcons0 : get_active_consent u b s = .ok none := by
      unfold get_active_consent
      rw [hnocons]
      rfl
    simp only [get_transactions_read_through, hacct, hisstale, hcons0]
    simp only [if_true]
  · exact serve_transactions_is_page u account.rowId fromD toD pageN limit s.transactions

/-- C7 witness: the amended theorem applied at a concrete never-synced
account with an empty consent table. -/
theorem read_through_missing_consent_graceful_witness :
    get_transactions_read_through 1000 4 "acc-7" "sbank" none none 1 50 300
        ⟨some "tok", some []⟩ (fun s => (s, none, ⟨0, 0⟩))
        ⟨[], [⟨9, 4, "sbank", "acc-7", none, none, true⟩],
          [⟨4, 9, "sbank", some "t1", 100, "RUB", "credit", "income", 50, none⟩]⟩ =
      (⟨[], [⟨9, 4, "sbank", "acc-7", none, none, true⟩],
        [⟨4, 9, "sbank", some "t1", 100, "RUB", "credit", "income", 50, none⟩]⟩,
       serve_transactions 4 9 none none 1 50
         [⟨4, 9, "sbank", some "t1", 100, "RUB", "credit", "income", 50, none⟩], ⟨0, 0⟩) ∧
    ∃ (txsPage : List TxRow) (total : Nat),
      serve_transactions 4 9 none none 1 50
          [⟨4, 9, "sbank", some "t1", 100, "RUB", "credit", "income", 50, none⟩] =
        .page txsPage total 1 50 :=
  read_through_missing_consent_graceful 1000 4 "acc-7" "sbank" none none 1 50 300
    ⟨some "tok", some []⟩ (fun s => (s, none, ⟨0, 0⟩))
    ⟨[], [⟨9, 4, "sbank", "acc-7", none, none, true⟩],
      [⟨4, 9, "sbank", some "t1", 100, "RUB", "credit", "income", 50, none⟩]⟩
    ⟨9, 4, "sbank", "acc-7", none, none, true⟩ rfl (Or.inl rfl) rfl

end VTBBank
